import Mathlib

/-! # Salon backend: bookings and product catalogue

A shallow embedding of the request handlers of `src/routes/booking.routes.js`
and `src/server.js`, together with the schemas of `src/models/Booking.js` and
`src/models/Product.js`.

The document store is a list of documents in insertion order.  Values the
environment chooses (the generated id of a new document, the clock, the
answers of the media provider) are arguments of the handlers.  An `await`
that rejects inside a handler's `try` block is an `Except.error`, and the
`catch` block turns it into the handler's 500 response.

The library calls the handlers make are modelled by what they do to the
collection: the ObjectId cast of `findById`, the String and Number casts and
the `required` validators of the schemas, the upload middleware with its file
filter, and the error-handling middleware.  A failure of the database
connection itself is not modelled.
-/

set_option autoImplicit false

namespace Salon

/-! ## JavaScript values of a request body -/

/-- A field of a request body: `undefined` when the key is absent, JSON `null`,
or text.  Forms submit text only; other JSON values are outside the model. -/
inductive JSVal where
  | undefined
  | null
  | str (s : String)
  deriving DecidableEq

/-- JavaScript truthiness: `undefined`, `null` and the empty string are falsy. -/
def JSVal.truthy : JSVal → Bool
  | .str s => decide (s ≠ "")
  | _ => false

/-- The JavaScript operator `a || b`, which yields `a` when it is truthy. -/
def JSVal.or (a b : JSVal) : JSVal :=
  if a.truthy then a else b

deriving instance DecidableEq for Except

/-! ## Object ids -/

/-- An ObjectId, held as its 24 lowercase hexadecimal digits. -/
abbrev ObjectId := String

/-- Hexadecimal digit test. -/
def isHexDigit (c : Char) : Bool :=
  ('0' ≤ c && c ≤ '9') || ('a' ≤ c && c ≤ 'f') || ('A' ≤ c && c ≤ 'F')

/-- ASCII lower-casing of one character. -/
def lowerChar (c : Char) : Char :=
  if 'A' ≤ c && c ≤ 'Z' then Char.ofNat (c.toNat + 32) else c

/-- Mongoose's cast of a route parameter to an ObjectId, as `findById` applies
it: a text of 24 hexadecimal digits is an id, anything else is a `CastError`
(`none`). -/
def castObjectId (s : String) : Option ObjectId :=
  if s.data.length = 24 ∧ s.data.all isHexDigit = true then
    some (String.mk (s.data.map lowerChar))
  else
    none

/-! ## HTTP responses -/

/-- Booking document, the fields of `bookingSchema`.  Every text path holds the
value it was given (`undefined` when unset). -/
structure Booking where
  _id : ObjectId
  clientName : JSVal
  clientPhone : JSVal
  clientEmail : JSVal
  serviceId : JSVal
  serviceName : JSVal
  stylistId : JSVal
  stylistName : JSVal
  date : JSVal
  time : JSVal
  notes : JSVal
  status : JSVal
  createdAt : Nat
  updatedAt : Option Nat
  deriving DecidableEq

/-- The body of a booking request, `req.body`. -/
structure BookingBody where
  clientName : JSVal
  clientPhone : JSVal
  clientEmail : JSVal
  serviceId : JSVal
  serviceName : JSVal
  stylistId : JSVal
  stylistName : JSVal
  date : JSVal
  time : JSVal
  notes : JSVal
  status : JSVal
  deriving DecidableEq

/-- What a booking handler sends: `res.json(...)` of a message, a document or a
list of documents. -/
inductive BookingPayload where
  | null
  | message (m : String)
  | booking (b : Booking)
  | bookings (l : List Booking)
  deriving DecidableEq

/-- The response of a booking handler: status code and JSON body. -/
structure BookingResponse where
  status : Nat
  body : BookingPayload
  deriving DecidableEq

/-! ## The booking collection -/

/-- The `required: true` validator of a String path: the value must be a
non-empty text. -/
def requiredString : JSVal → Bool
  | .str s => decide (s ≠ "")
  | _ => false

/-- Validation of a booking document against `bookingSchema`: the eight
required paths. -/
def Booking.validate (b : Booking) : Bool :=
  requiredString b.clientName && requiredString b.clientPhone &&
  requiredString b.serviceId && requiredString b.serviceName &&
  requiredString b.stylistId && requiredString b.stylistName &&
  requiredString b.date && requiredString b.time

/-- Query `Booking.findById(id)`: rejects with a `CastError` when the id is not an
ObjectId, otherwise resolves to the document with that id or to `null`. -/
def Booking.findById (db : List Booking) (id : String) : Except String (Option Booking) :=
  match castObjectId id with
  | none => .error "CastError"
  | some oid => .ok (db.find? (fun b => decide (b._id = oid)))

/-- Call `newBooking.save()` of a new document: rejects when validation fails or the
id is already taken, otherwise inserts the document. -/
def Booking.save (db : List Booking) (b : Booking) : Except String (List Booking × Booking) :=
  if b.validate = false then .error "ValidationError"
  else if db.any (fun x => decide (x._id = b._id)) then .error "E11000 duplicate key"
  else .ok (db ++ [b], b)

/-- Query `Booking.find().sort({ createdAt: -1 })`: all documents, newest first. -/
def Booking.findSorted (db : List Booking) : List Booking :=
  db.insertionSort (fun a b => a.createdAt ≥ b.createdAt)

/-- One key of an update object: a key whose value is `undefined` is left out
of the update, so the stored value stays; any other value replaces it. -/
def JSVal.updateOf (v stored : JSVal) : JSVal :=
  match v with
  | .undefined => stored
  | _ => v

/-- The update object of `router.put('/:id')` applied to one document: every
text path whose request value is not `undefined` takes the request's value,
and `updatedAt` is set. -/
def Booking.applyUpdate (body : BookingBody) (now : Nat) (b : Booking) : Booking :=
  { b with
    clientName := body.clientName.updateOf b.clientName
    clientPhone := body.clientPhone.updateOf b.clientPhone
    clientEmail := body.clientEmail.updateOf b.clientEmail
    serviceId := body.serviceId.updateOf b.serviceId
    serviceName := body.serviceName.updateOf b.serviceName
    stylistId := body.stylistId.updateOf b.stylistId
    stylistName := body.stylistName.updateOf b.stylistName
    date := body.date.updateOf b.date
    time := body.time.updateOf b.time
    notes := body.notes.updateOf b.notes
    status := body.status.updateOf b.status
    updatedAt := some now }

/-- Call `Booking.findByIdAndUpdate(id, updateData, { new: true })`: the first
document with the id is replaced by its updated version, which is returned
(`null` when there is none).  No validator runs on this path. -/
def Booking.findByIdAndUpdate (db : List Booking) (id : String) (body : BookingBody) (now : Nat) :
    Except String (List Booking × Option Booking) :=
  match castObjectId id with
  | none => .error "CastError"
  | some oid =>
    match db.find? (fun b => decide (b._id = oid)) with
    | none => .ok (db, none)
    | some b =>
      let b' := Booking.applyUpdate body now b
      .ok (db.map (fun x => if x._id = oid then b' else x), some b')

/-- Call `Booking.findByIdAndDelete(id)`. -/
def Booking.findByIdAndDelete (db : List Booking) (id : String) : Except String (List Booking) :=
  match castObjectId id with
  | none => .error "CastError"
  | some oid => .ok (db.filter (fun x => decide (x._id ≠ oid)))

/-! ## Booking handlers (`src/routes/booking.routes.js`) -/

/-- Route `router.get('/')`. -/
def getBookings (db : List Booking) : BookingResponse :=
  { status := 200, body := .bookings (Booking.findSorted db) }

/-- Route `router.get('/:id')`. -/
def getBooking (db : List Booking) (id : String) : BookingResponse :=
  match Booking.findById db id with
  | .error _ => { status := 500, body := .message "Failed to fetch booking" }
  | .ok none => { status := 404, body := .message "Booking not found" }
  | .ok (some booking) => { status := 200, body := .booking booking }

/-- The document `new Booking({ ... })` of `router.post('/')`: `newId` is the
id generated for it and `now` the value of `new Date()`. -/
def newBooking (newId : ObjectId) (now : Nat) (body : BookingBody) : Booking :=
  { _id := newId
    clientName := body.clientName
    clientPhone := body.clientPhone
    clientEmail := body.clientEmail
    serviceId := body.serviceId
    serviceName := body.serviceName
    stylistId := body.stylistId
    stylistName := body.stylistName
    date := body.date
    time := body.time
    notes := body.notes
    status := body.status.or (.str "scheduled")
    createdAt := now
    updatedAt := none }

/-- Route `router.post('/')`. -/
def postBooking (db : List Booking) (newId : ObjectId) (now : Nat) (body : BookingBody) :
    List Booking × BookingResponse :=
  match Booking.save db (newBooking newId now body) with
  | .ok (db', savedBooking) => (db', { status := 201, body := .booking savedBooking })
  | .error _ => (db, { status := 500, body := .message "Failed to create booking" })

/-- Route `router.put('/:id')`. -/
def putBooking (db : List Booking) (id : String) (now : Nat) (body : BookingBody) :
    List Booking × BookingResponse :=
  match Booking.findById db id with
  | .error _ => (db, { status := 500, body := .message "Failed to update booking" })
  | .ok none => (db, { status := 404, body := .message "Booking not found" })
  | .ok (some _) =>
    match Booking.findByIdAndUpdate db id body now with
    | .error _ => (db, { status := 500, body := .message "Failed to update booking" })
    | .ok (db', some updatedBooking) => (db', { status := 200, body := .booking updatedBooking })
    | .ok (db', none) => (db', { status := 200, body := .null })

/-- Route `router.delete('/:id')`. -/
def deleteBooking (db : List Booking) (id : String) : List Booking × BookingResponse :=
  match Booking.findById db id with
  | .error _ => (db, { status := 500, body := .message "Failed to delete booking" })
  | .ok none => (db, { status := 404, body := .message "Booking not found" })
  | .ok (some _) =>
    match Booking.findByIdAndDelete db id with
    | .error _ => (db, { status := 500, body := .message "Failed to delete booking" })
    | .ok db' => (db', { status := 200, body := .message "Booking deleted successfully" })

/-! ## Text helpers of the product routes -/

/-- JavaScript `s.split(sep)` for a one-character separator: the pieces between
the separators, never an empty array. -/
def splitOn (sep : Char) : List Char → List (List Char)
  | [] => [[]]
  | c :: cs =>
    let rest := splitOn sep cs
    if c = sep then [] :: rest else (c :: rest.headD []) :: rest.tail

/-- The expression `imageUrl.split('/').pop().split('.')[0]` of the update and
delete routes. -/
def publicIdOf (imageUrl : List Char) : List Char :=
  (splitOn '.' ((splitOn '/' imageUrl).getLastD [])).headD []

/-- The argument of `cloudinary.uploader.destroy`, the template text
"product-images/" followed by the public id. -/
def destroyTarget (imageUrl : String) : String :=
  String.mk ("product-images/".data ++ publicIdOf imageUrl.data)

/-- Method `RegExp.test` of an alternation of literal words such as
`/jpeg|jpg|png|gif/`: some word matches at some position of the text. -/
def regexTest (words : List (List Char)) : List Char → Bool
  | [] => words.any (fun w => w.isPrefixOf [])
  | c :: cs => words.any (fun w => w.isPrefixOf (c :: cs)) || regexTest words cs

/-- The words of the pattern `/jpeg|jpg|png|gif/`. -/
def filetypes : List (List Char) :=
  ["jpeg".data, "jpg".data, "png".data, "gif".data]

/-- The variables of the backward scan of Node's `path.extname` (POSIX);
`none` stands for the value -1 of `startDot` and `end`. -/
structure ExtnameState where
  startDot : Option Nat
  startPart : Nat
  endPos : Option Nat
  matchedSlash : Bool
  preDotState : Int

/-- The loop of `path.extname`: `extnameScan path n st` visits the indices
`n - 1, ..., 0`. -/
def extnameScan (path : List Char) : Nat → ExtnameState → ExtnameState
  | 0, st => st
  | i + 1, st =>
    let code := path.getD i ' '
    if code = '/' then
      if st.matchedSlash = false then { st with startPart := i + 1 }
      else extnameScan path i st
    else
      let st1 :=
        if st.endPos = none then { st with matchedSlash := false, endPos := some (i + 1) }
        else st
      let st2 :=
        if code = '.' then
          if st1.startDot = none then { st1 with startDot := some i }
          else if st1.preDotState ≠ 1 then { st1 with preDotState := 1 }
          else st1
        else if st1.startDot ≠ none then { st1 with preDotState := -1 }
        else st1
      extnameScan path i st2

/-- Node's `path.extname` (POSIX): the text from the last dot of the last path
component on, or the empty text. -/
def extname (path : List Char) : List Char :=
  let st := extnameScan path path.length
    { startDot := none, startPart := 0, endPos := none, matchedSlash := true, preDotState := 0 }
  match st.startDot, st.endPos with
  | some startDot, some e =>
    if st.preDotState = 0 ∨
        (st.preDotState = 1 ∧ startDot = e - 1 ∧ startDot = st.startPart + 1) then []
    else (path.drop startDot).take (e - startDot)
  | _, _ => []

/-! ## Upload middleware (`multer` configuration of `src/server.js`) -/

/-- An attachment as the file filter sees it. -/
structure File where
  originalname : String
  mimetype : String
  size : Nat
  deriving DecidableEq

/-- The `limits.fileSize` option, `5 * 1024 * 1024` bytes. -/
def fileSizeLimit : Nat := 5 * 1024 * 1024

/-- The `fileFilter` option: `cb(null, true)` is `.ok true`, `cb(new Error(m))`
is `.error m`.  Lower-casing is ASCII lower-casing. -/
def fileFilter (file : File) : Except String Bool :=
  let extnameOk := regexTest filetypes ((extname file.originalname.data).map lowerChar)
  let mimetypeOk := regexTest filetypes file.mimetype.data
  if mimetypeOk && extnameOk then .ok true
  else .error "Only image files are allowed!"

/-- A JavaScript number other than `NaN`: a finite value or one of the two
infinities. -/
inductive JSNumber where
  | finite (q : ℚ)
  | infinity
  | negInfinity
  deriving DecidableEq

/-- What the product routes call outside the process. -/
structure Env where
  /-- JavaScript `Number(text)`, used by the Number cast; `none` is `NaN`. -/
  toNumber : String → Option JSNumber
  /-- The storage engine's upload of an accepted attachment to the provider:
  the location of the stored image, or the failure. -/
  upload : File → Except String String
  /-- The call `cloudinary.uploader.destroy(publicId)`: it resolves or rejects. -/
  destroy : String → Except String String

/-- The middleware `upload.single('image')`: the value of `req.file.path`
(`none` when the request has no attachment), or the error handed to `next`.
A part without a file name is skipped before the file filter is asked, and an
accepted file that reaches the size limit is refused. -/
def uploadSingle (env : Env) (file : Option File) : Except String (Option String) :=
  match file with
  | none => .ok none
  | some f =>
    if f.originalname = "" then .ok none
    else
    match fileFilter f with
    | .error e => .error e
    | .ok false => .ok none
    | .ok true =>
      if f.size ≥ fileSizeLimit then .error "File too large"
      else
        match env.upload f with
        | .error e => .error e
        | .ok path => .ok (some path)

/-! ## The product collection -/

/-- Product document, the paths of `productSchema`. -/
structure Product where
  _id : ObjectId
  name : JSVal
  price : Option JSNumber
  category : JSVal
  description : JSVal
  imageUrl : JSVal
  publicId : JSVal
  inStock : Bool
  createdAt : Nat
  deriving DecidableEq

/-- The body of a product request, `req.body`. -/
structure ProductBody where
  name : JSVal
  description : JSVal
  price : JSVal
  category : JSVal
  stock : JSVal
  deriving DecidableEq

/-- What a product route sends. -/
inductive ProductPayload where
  | message (m : String)
  | failure (m : String) (error : String)
  | product (p : Product)
  | products (l : List Product)
  deriving DecidableEq

/-- The response of a product route: status code and JSON body. -/
structure ProductResponse where
  status : Nat
  body : ProductPayload
  deriving DecidableEq

/-- The result of a product route: the collection afterwards, the response and
the identifiers passed to the provider's destroy call, in order. -/
structure ProductOutcome where
  db : List Product
  res : ProductResponse
  destroyed : List String
  deriving DecidableEq

/-- A hydrated document: its paths and whether a setter recorded a cast error,
which `save()` reports. -/
structure ProductDoc where
  fields : Product
  castError : Bool

/-- Mongoose's Number cast of a body value: nullish values and the empty text
give no number, other text is converted by `Number`, and `NaN` is a cast
error. -/
def castNumber (env : Env) : JSVal → Except String (Option JSNumber)
  | .undefined => .ok none
  | .null => .ok none
  | .str s =>
    if s = "" then .ok none
    else
      match env.toNumber s with
      | some q => .ok (some q)
      | none => .error "CastError"

/-- Assignment to the `price` path of a document. -/
def ProductDoc.setPrice (env : Env) (v : JSVal) (d : ProductDoc) : ProductDoc :=
  match castNumber env v with
  | .ok q => { d with fields := { d.fields with price := q } }
  | .error _ => { d with castError := true }

/-- Validation of a product document against `productSchema`: the required
paths `name`, `price` and `category`. -/
def Product.validate (p : Product) : Bool :=
  requiredString p.name && p.price.isSome && requiredString p.category

/-- Query `Product.findById(id)`. -/
def Product.findById (db : List Product) (id : String) : Except String (Option Product) :=
  match castObjectId id with
  | none => .error "CastError"
  | some oid => .ok (db.find? (fun p => decide (p._id = oid)))

/-- Call `newProduct.save()` of a new document. -/
def ProductDoc.insert (db : List Product) (d : ProductDoc) : Except String (List Product × Product) :=
  if d.castError = true ∨ d.fields.validate = false then .error "ValidationError"
  else if db.any (fun x => decide (x._id = d.fields._id)) then .error "E11000 duplicate key"
  else .ok (db ++ [d.fields], d.fields)

/-- Call `product.save()` of a document read from the collection. -/
def ProductDoc.save (db : List Product) (d : ProductDoc) : Except String (List Product × Product) :=
  if d.castError = true ∨ d.fields.validate = false then .error "ValidationError"
  else .ok (db.map (fun x => if x._id = d.fields._id then d.fields else x), d.fields)

/-- Query `Product.find(filter).sort({ createdAt: -1 })`. -/
def Product.findSorted (db : List Product) (filter : Product → Bool) : List Product :=
  (db.filter filter).insertionSort (fun a b => a.createdAt ≥ b.createdAt)

/-- Call `Product.findByIdAndDelete(id)`. -/
def Product.findByIdAndDelete (db : List Product) (id : String) : Except String (List Product) :=
  match castObjectId id with
  | none => .error "CastError"
  | some oid => .ok (db.filter (fun x => decide (x._id ≠ oid)))

/-! ## Product routes (`src/server.js`) -/

/-- The error-handling middleware registered last: it answers an error handed
to `next`, here by the upload middleware, before any route handler ran. -/
def errorMiddleware (db : List Product) (err : String) : ProductOutcome :=
  { db := db
    res := { status := 500, body := .failure "Something went wrong!" err }
    destroyed := [] }

/-- Route `app.get('/api/products')`. -/
def getProducts (db : List Product) : ProductResponse :=
  { status := 200, body := .products (Product.findSorted db (fun _ => true)) }

/-- Route `app.get('/api/products/category/:category')`: the filter `{ category }`
selects the documents whose category is the text of the route parameter. -/
def getProductsByCategory (db : List Product) (category : String) : ProductResponse :=
  { status := 200
    body := .products (Product.findSorted db (fun p => decide (p.category = .str category))) }

/-- Route `app.get('/api/products/:id')`. -/
def getProduct (db : List Product) (id : String) : ProductResponse :=
  match Product.findById db id with
  | .error _ => { status := 500, body := .message "Failed to fetch product" }
  | .ok none => { status := 404, body := .message "Product not found" }
  | .ok (some product) => { status := 200, body := .product product }

/-- The handler of `app.post('/api/products')`, after the upload middleware;
`reqFile` is `req.file.path`.  The schema has no `stock` path, so the value
`stock || 0` is not part of the document. -/
def postProductHandler (env : Env) (db : List Product) (newId : ObjectId) (now : Nat)
    (body : ProductBody) (reqFile : Option String) : ProductOutcome :=
  let newProduct : ProductDoc :=
    ProductDoc.setPrice env body.price
      { fields :=
          { _id := newId
            name := body.name
            price := none
            category := body.category
            description := body.description
            imageUrl := match reqFile with
              | some path => .str path
              | none => .str ""
            publicId := .undefined
            inStock := true
            createdAt := now }
        castError := false }
  match newProduct.insert db with
  | .ok (db', savedProduct) =>
    { db := db', res := { status := 201, body := .product savedProduct }, destroyed := [] }
  | .error _ =>
    { db := db, res := { status := 500, body := .message "Failed to create product" }, destroyed := [] }

/-- Route `app.post('/api/products', upload.single('image'), ...)`. -/
def postProduct (env : Env) (db : List Product) (newId : ObjectId) (now : Nat)
    (body : ProductBody) (file : Option File) : ProductOutcome :=
  match uploadSingle env file with
  | .error e => errorMiddleware db e
  | .ok reqFile => postProductHandler env db newId now body reqFile

/-- The block shared by the update and delete routes:
`if (imageUrl) { await cloudinary.uploader.destroy(...) }`.  The result is
whether the awaited call resolved, with the identifiers passed to it. -/
def destroyStoredImage (env : Env) (imageUrl : JSVal) : Except String Unit × List String :=
  if imageUrl.truthy then
    match imageUrl with
    | .str url =>
      match env.destroy (destroyTarget url) with
      | .error e => (.error e, [destroyTarget url])
      | .ok _ => (.ok (), [destroyTarget url])
    | _ => (.ok (), [])
  else (.ok (), [])

/-- The assignments to `name`, `description`, `price` and `category` of the
update handler.  The schema has no `stock` path, so the assignment to
`product.stock` does not reach the collection. -/
def updateFields (env : Env) (body : ProductBody) (product : Product) : ProductDoc :=
  let doc : ProductDoc :=
    { fields :=
        { product with
          name := body.name.or product.name
          description := body.description.or product.description
          category := body.category.or product.category }
      castError := false }
  if body.price.truthy then doc.setPrice env body.price else doc

/-- Assignment `product.imageUrl = req.file.path` of the update handler. -/
def ProductDoc.setImageUrl (path : String) (d : ProductDoc) : ProductDoc :=
  { d with fields := { d.fields with imageUrl := .str path } }

/-- The end of the update handler: `product.save()` and the response. -/
def saveUpdated (db : List Product) (doc : ProductDoc) (destroyed : List String) : ProductOutcome :=
  match doc.save db with
  | .ok (db', updatedProduct) =>
    { db := db', res := { status := 200, body := .product updatedProduct }, destroyed := destroyed }
  | .error _ =>
    { db := db
      res := { status := 500, body := .message "Failed to update product" }
      destroyed := destroyed }

/-- The handler of `app.put('/api/products/:id')`, after the upload
middleware; `reqFile` is `req.file.path`. -/
def putProductHandler (env : Env) (db : List Product) (id : String)
    (body : ProductBody) (reqFile : Option String) : ProductOutcome :=
  match Product.findById db id with
  | .error _ =>
    { db := db, res := { status := 500, body := .message "Failed to update product" }, destroyed := [] }
  | .ok none =>
    { db := db, res := { status := 404, body := .message "Product not found" }, destroyed := [] }
  | .ok (some product) =>
    let doc := updateFields env body product
    match reqFile with
    | none => saveUpdated db doc []
    | some path =>
      match destroyStoredImage env doc.fields.imageUrl with
      | (.error _, destroyed) =>
        { db := db
          res := { status := 500, body := .message "Failed to update product" }
          destroyed := destroyed }
      | (.ok _, destroyed) =>
        saveUpdated db (doc.setImageUrl path) destroyed

/-- Route `app.put('/api/products/:id', upload.single('image'), ...)`. -/
def putProduct (env : Env) (db : List Product) (id : String)
    (body : ProductBody) (file : Option File) : ProductOutcome :=
  match uploadSingle env file with
  | .error e => errorMiddleware db e
  | .ok reqFile => putProductHandler env db id body reqFile

/-- Route `app.delete('/api/products/:id')`. -/
def deleteProduct (env : Env) (db : List Product) (id : String) : ProductOutcome :=
  match Product.findById db id with
  | .error _ =>
    { db := db, res := { status := 500, body := .message "Failed to delete product" }, destroyed := [] }
  | .ok none =>
    { db := db, res := { status := 404, body := .message "Product not found" }, destroyed := [] }
  | .ok (some product) =>
    match destroyStoredImage env product.imageUrl with
    | (.error _, destroyed) =>
      { db := db
        res := { status := 500, body := .message "Failed to delete product" }
        destroyed := destroyed }
    | (.ok _, destroyed) =>
      match Product.findByIdAndDelete db id with
      | .error _ =>
        { db := db
          res := { status := 500, body := .message "Failed to delete product" }
          destroyed := destroyed }
      | .ok db' =>
        { db := db'
          res := { status := 200, body := .message "Product deleted successfully" }
          destroyed := destroyed }

/-! ## Sample data -/

/-- A well-formed id. -/
def sampleId : ObjectId := "65a1b2c3d4e5f60718293a4b"

/-- The example payload of the specification. -/
def sampleBody : BookingBody :=
  { clientName := .str "A", clientPhone := .str "555", clientEmail := .undefined
    serviceId := .str "s1", serviceName := .str "Cut"
    stylistId := .str "st1", stylistName := .str "Jo"
    date := .str "2024-05-01", time := .str "10:00"
    notes := .undefined, status := .undefined }

/-- A provider whose destroy call rejects; `Number` reads decimal digits. -/
def failingEnv : Env :=
  { toNumber := fun s => if s = "12" then some (.finite 12) else none
    upload := fun f => .ok (String.mk ("https://res.cloudinary.com/demo/image/upload/v1/product-images/".data ++ f.originalname.data))
    destroy := fun _ => .error "provider unavailable" }

/-- A provider whose calls resolve. -/
def workingEnv : Env :=
  { failingEnv with destroy := fun _ => .ok "ok" }

/-- A stored product with an image. -/
def sampleProduct : Product :=
  { _id := sampleId, name := .str "Shampoo", price := some (.finite 9), category := .str "hair"
    description := .str "Mild", publicId := .undefined, inStock := true, createdAt := 5
    imageUrl := .str "https://res.cloudinary.com/demo/image/upload/v1/product-images/abc123.jpg" }

/-- An accepted attachment. -/
def sampleFile : File :=
  { originalname := "new.png", mimetype := "image/png", size := 1000 }

/-- A payload whose eight required fields are present as non-empty text. -/
def BookingBody.valid (body : BookingBody) : Bool :=
  requiredString body.clientName && requiredString body.clientPhone &&
  requiredString body.serviceId && requiredString body.serviceName &&
  requiredString body.stylistId && requiredString body.stylistName &&
  requiredString body.date && requiredString body.time

/-- A payload in which some required field is missing (its key is absent). -/
def BookingBody.missingRequired (body : BookingBody) : Prop :=
  body.clientName = .undefined ∨ body.clientPhone = .undefined ∨
  body.serviceId = .undefined ∨ body.serviceName = .undefined ∨
  body.stylistId = .undefined ∨ body.stylistName = .undefined ∨
  body.date = .undefined ∨ body.time = .undefined

/-- The example payload with the status submitted as empty text. -/
def emptyStatusBody : BookingBody :=
  { sampleBody with status := .str "" }

/-- The example payload without its client name. -/
def namelessBody : BookingBody :=
  { sampleBody with clientName := .undefined }

/-- A stored booking. -/
def sampleBooking : Booking :=
  { _id := sampleId
    clientName := .str "A", clientPhone := .str "555", clientEmail := .undefined
    serviceId := .str "s1", serviceName := .str "Cut"
    stylistId := .str "st1", stylistName := .str "Jo"
    date := .str "2024-05-01", time := .str "10:00"
    notes := .undefined, status := .str "scheduled"
    createdAt := 7, updatedAt := none }

/-- Another well-formed id, of no stored document. -/
def otherId : ObjectId := "000000000000000000000001"

/-- An update body that carries the name as empty text and nothing else. -/
def emptyNameBody : ProductBody :=
  { name := .str "", description := .undefined, price := .undefined
    category := .undefined, stock := .undefined }

/-- An update body with a new name and price and no category. -/
def renameBody : ProductBody :=
  { name := .str "Conditioner", description := .undefined, price := .str "12"
    category := .undefined, stock := .undefined }

/-- A second stored product, whose category differs from the first in case. -/
def otherProduct : Product :=
  { _id := otherId, name := .str "Comb", price := some (.finite 3), category := .str "Hair"
    description := .undefined, imageUrl := .str "", publicId := .undefined
    inStock := true, createdAt := 8 }

/-- A third stored product, newer than the first and of the same category. -/
def thirdProduct : Product :=
  { _id := "000000000000000000000002", name := .str "Oil", price := some (.finite 7)
    category := .str "hair", description := .undefined, imageUrl := .str ""
    publicId := .undefined, inStock := true, createdAt := 9 }

/-- An attachment of plain text. -/
def textFile : File :=
  { originalname := "notes.txt", mimetype := "text/plain", size := 12 }

/-- An attachment that is no image but whose name and content type contain
the word "gif". -/
def giftFile : File :=
  { originalname := "report.gift", mimetype := "text/x-gift-list", size := 10 }

/-- A create body for a product. -/
def createBody : ProductBody :=
  { name := .str "Comb", description := .undefined, price := .str "12"
    category := .str "hair", stock := .undefined }

/-- The fields of a saved update `p'` in terms of the request body and the
product `product` read by the handler. -/
def UpdatedAs (env : Env) (body : ProductBody) (product p' : Product) : Prop :=
  p'.name = body.name.or product.name ∧
  p'.description = body.description.or product.description ∧
  p'.category = body.category.or product.category ∧
  (body.price.truthy = false → p'.price = product.price) ∧
  (∀ s, body.price = .str s → s ≠ "" → p'.price = env.toNumber s ∧ (env.toNumber s).isSome = true)

/-! ## Lemmas on the collection -/

theorem find?_none_of_fresh {α : Type} (key : α → ObjectId) (db : List α) (oid : ObjectId)
    (h : ∀ b ∈ db, key b ≠ oid) :
    db.find? (fun b => decide (key b = oid)) = none := by
  rw [List.find?_eq_none]
  intro b hb
  simpa using h b hb

theorem any_false_of_fresh {α : Type} (key : α → ObjectId) (db : List α) (oid : ObjectId)
    (h : ∀ b ∈ db, key b ≠ oid) :
    db.any (fun b => decide (key b = oid)) = false := by
  rw [List.any_eq_false]
  intro b hb
  simpa using h b hb

theorem find?_some_of_mem {α : Type} (key : α → ObjectId) (db : List α) (oid : ObjectId)
    (h : ∃ b ∈ db, key b = oid) :
    ∃ b ∈ db, key b = oid ∧ db.find? (fun b => decide (key b = oid)) = some b := by
  cases hf : db.find? (fun b => decide (key b = oid)) with
  | none =>
    rw [List.find?_eq_none] at hf
    obtain ⟨b, hb, hk⟩ := h
    exact absurd hk (by simpa using hf b hb)
  | some b =>
    refine ⟨b, List.mem_of_find?_eq_some hf, ?_, rfl⟩
    simpa using List.find?_some hf

theorem requiredString_undefined : requiredString .undefined = false := rfl

theorem validate_false_of_missing (b : Booking)
    (h : b.clientName = .undefined ∨ b.clientPhone = .undefined ∨
      b.serviceId = .undefined ∨ b.serviceName = .undefined ∨
      b.stylistId = .undefined ∨ b.stylistName = .undefined ∨
      b.date = .undefined ∨ b.time = .undefined) :
    b.validate = false := by
  unfold Booking.validate
  rcases h with h | h | h | h | h | h | h | h <;> simp [h, requiredString_undefined]

/-! ## Booking theorems -/

/-- C1, as stated, fails: the example payload with `status: ""` is valid, is
created with 201 and read back with 200, and the record read back has status
"scheduled", not the submitted empty text. -/
theorem postBooking_getBooking_status_counterexample :
    emptyStatusBody.valid = true ∧
    emptyStatusBody.status = .str "" ∧
    (postBooking [] sampleId 7 emptyStatusBody).2.status = 201 ∧
    getBooking (postBooking [] sampleId 7 emptyStatusBody).1 sampleId =
      { status := 200, body := .booking sampleBooking } ∧
    sampleBooking.status = .str "scheduled" ∧
    sampleBooking.status ≠ emptyStatusBody.status := by
  decide

/-- C1 (amended): for a payload whose required fields are non-empty text, POST
answers 201 with the created record, GET by the returned id answers that same
record, every submitted field other than status equals the submitted value,
and the status equals the submitted one when that is non-empty text and is
"scheduled" when it is omitted or empty. -/
theorem postBooking_then_getBooking (db : List Booking) (newId : ObjectId) (now : Nat)
    (body : BookingBody) (hvalid : body.valid = true)
    (hid : castObjectId newId = some newId) (hfresh : ∀ b ∈ db, b._id ≠ newId) :
    ∃ saved : Booking,
      postBooking db newId now body = (db ++ [saved], { status := 201, body := .booking saved }) ∧
      saved._id = newId ∧
      getBooking (postBooking db newId now body).1 saved._id =
        { status := 200, body := .booking saved } ∧
      saved.clientName = body.clientName ∧ saved.clientPhone = body.clientPhone ∧
      saved.clientEmail = body.clientEmail ∧
      saved.serviceId = body.serviceId ∧ saved.serviceName = body.serviceName ∧
      saved.stylistId = body.stylistId ∧ saved.stylistName = body.stylistName ∧
      saved.date = body.date ∧ saved.time = body.time ∧ saved.notes = body.notes ∧
      (body.status.truthy = true → saved.status = body.status) ∧
      (body.status.truthy = false → saved.status = .str "scheduled") ∧
      (body.status = .undefined → saved.status = .str "scheduled") ∧
      saved.createdAt = now := by
  have hv : (newBooking newId now body).validate = true := hvalid
  have hpost : postBooking db newId now body =
      (db ++ [newBooking newId now body],
        { status := 201, body := .booking (newBooking newId now body) }) := by
    simp only [postBooking, Booking.save, hv]
    have := any_false_of_fresh Booking._id db newId hfresh
    simp only [newBooking] at this ⊢
    simp [this]
  refine ⟨newBooking newId now body, hpost, rfl, ?_, rfl, rfl, rfl, rfl, rfl, rfl, rfl, rfl, rfl, rfl, ?_, ?_, ?_, rfl⟩
  · rw [hpost]
    simp only [getBooking, Booking.findById, newBooking, hid, List.find?_append,
      find?_none_of_fresh Booking._id db newId hfresh]
    simp
  · intro h
    simp [newBooking, JSVal.or, h]
  · intro h
    simp [newBooking, JSVal.or, h]
  · intro h
    simp [newBooking, JSVal.or, h, JSVal.truthy]

/-- The amended C1 at the example payload of the specification. -/
theorem postBooking_then_getBooking_witness :
    ∃ saved : Booking,
      postBooking [] sampleId 7 sampleBody =
        ([] ++ [saved], { status := 201, body := .booking saved }) ∧
      saved._id = sampleId ∧
      getBooking (postBooking [] sampleId 7 sampleBody).1 saved._id =
        { status := 200, body := .booking saved } ∧
      saved.clientName = sampleBody.clientName ∧ saved.clientPhone = sampleBody.clientPhone ∧
      saved.clientEmail = sampleBody.clientEmail ∧
      saved.serviceId = sampleBody.serviceId ∧ saved.serviceName = sampleBody.serviceName ∧
      saved.stylistId = sampleBody.stylistId ∧ saved.stylistName = sampleBody.stylistName ∧
      saved.date = sampleBody.date ∧ saved.time = sampleBody.time ∧
      saved.notes = sampleBody.notes ∧
      (sampleBody.status.truthy = true → saved.status = sampleBody.status) ∧
      (sampleBody.status.truthy = false → saved.status = .str "scheduled") ∧
      (sampleBody.status = .undefined → saved.status = .str "scheduled") ∧
      saved.createdAt = 7 :=
  postBooking_then_getBooking [] sampleId 7 sampleBody (by decide) (by decide) (by decide)

/-- C6, as stated, fails: the example payload without `clientName` is answered
with status 500, not 400; no booking is stored. -/
theorem postBooking_missing_counterexample :
    namelessBody.missingRequired ∧
    postBooking [] sampleId 7 namelessBody =
      ([], { status := 500, body := .message "Failed to create booking" }) ∧
    (postBooking [] sampleId 7 namelessBody).2.status ≠ 400 := by
  refine ⟨Or.inl rfl, by decide, by decide⟩

/-- C6 (amended): a create request in which a required field is missing fails
with status 500 and the message "Failed to create booking", and the stored
bookings are unchanged. -/
theorem postBooking_missing_required (db : List Booking) (newId : ObjectId) (now : Nat)
    (body : BookingBody) (h : body.missingRequired) :
    postBooking db newId now body =
      (db, { status := 500, body := .message "Failed to create booking" }) := by
  have hv : (newBooking newId now body).validate = false :=
    validate_false_of_missing _ h
  simp [postBooking, Booking.save, hv]

/-- The amended C6 at the example payload without its client name, on a
collection that holds a booking. -/
theorem postBooking_missing_required_witness :
    postBooking [sampleBooking] otherId 9 namelessBody =
      ([sampleBooking], { status := 500, body := .message "Failed to create booking" }) :=
  postBooking_missing_required [sampleBooking] otherId 9 namelessBody (Or.inl rfl)

/-- C7, as stated, fails: for the malformed id "abc" the handler answers 500
"Failed to fetch booking", not 404 "Booking not found". -/
theorem getBooking_malformed_counterexample :
    castObjectId "abc" = none ∧
    getBooking [sampleBooking] "abc" =
      { status := 500, body := .message "Failed to fetch booking" } ∧
    (getBooking [sampleBooking] "abc").status ≠ 404 := by
  decide

/-- C7 (amended): GET by id answers the stored record when the id resolves,
404 "Booking not found" when the id is well-formed and matches no record, and
500 "Failed to fetch booking" when the id is malformed. -/
theorem getBooking_cases (db : List Booking) (id : String) :
    (∀ oid, castObjectId id = some oid → (∃ b ∈ db, b._id = oid) →
      ∃ b ∈ db, b._id = oid ∧ getBooking db id = { status := 200, body := .booking b }) ∧
    (∀ oid, castObjectId id = some oid → (∀ b ∈ db, b._id ≠ oid) →
      getBooking db id = { status := 404, body := .message "Booking not found" }) ∧
    (castObjectId id = none →
      getBooking db id = { status := 500, body := .message "Failed to fetch booking" }) := by
  refine ⟨?_, ?_, ?_⟩
  · intro oid hc hex
    obtain ⟨b, hb, hk, hf⟩ := find?_some_of_mem Booking._id db oid hex
    exact ⟨b, hb, hk, by simp [getBooking, Booking.findById, hc, hf]⟩
  · intro oid hc hno
    simp [getBooking, Booking.findById, hc, find?_none_of_fresh Booking._id db oid hno]
  · intro hc
    simp [getBooking, Booking.findById, hc]

/-- The three cases of the amended C7 on a collection with one booking. -/
theorem getBooking_cases_witness :
    getBooking [sampleBooking] sampleId = { status := 200, body := .booking sampleBooking } ∧
    getBooking [sampleBooking] otherId =
      { status := 404, body := .message "Booking not found" } ∧
    getBooking [sampleBooking] "abc" =
      { status := 500, body := .message "Failed to fetch booking" } := by
  refine ⟨?_, ?_, ?_⟩
  · obtain ⟨b, hb, _, h⟩ := (getBooking_cases [sampleBooking] sampleId).1 sampleId
      (by decide) ⟨sampleBooking, by decide, rfl⟩
    have hb' : b = sampleBooking := by simpa using hb
    rw [h, hb']
  · exact (getBooking_cases [sampleBooking] otherId).2.1 otherId (by decide) (by decide)
  · exact (getBooking_cases [sampleBooking] "abc").2.2 (by decide)

/-- C8, as stated, fails: the id "abc" resolves to no booking, and PUT on it
answers 500 "Failed to update booking", not 404. -/
theorem putBooking_malformed_counterexample :
    (∀ b ∈ [sampleBooking], castObjectId "abc" ≠ some b._id) ∧
    putBooking [sampleBooking] "abc" 9 sampleBody =
      ([sampleBooking], { status := 500, body := .message "Failed to update booking" }) ∧
    (putBooking [sampleBooking] "abc" 9 sampleBody).2.status ≠ 404 := by
  decide

/-- C8 (amended): for a PUT whose id resolves to no stored booking the stored
bookings are the same before and after; the response is 404 "Booking not
found" when the id is well-formed and 500 "Failed to update booking" when it
is malformed. -/
theorem putBooking_unresolved (db : List Booking) (id : String) (now : Nat)
    (body : BookingBody) (h : ∀ b ∈ db, castObjectId id ≠ some b._id) :
    (putBooking db id now body).1 = db ∧
    ((∃ oid, castObjectId id = some oid) →
      (putBooking db id now body).2 = { status := 404, body := .message "Booking not found" }) ∧
    (castObjectId id = none →
      (putBooking db id now body).2 =
        { status := 500, body := .message "Failed to update booking" }) := by
  cases hc : castObjectId id with
  | none => simp [putBooking, Booking.findById, hc]
  | some oid =>
    have hno : ∀ b ∈ db, b._id ≠ oid := by
      intro b hb hk
      exact h b hb (by rw [hc, hk])
    simp [putBooking, Booking.findById, hc, find?_none_of_fresh Booking._id db oid hno]

/-- The amended C8 for a well-formed id of no stored booking. -/
theorem putBooking_unresolved_witness :
    (putBooking [sampleBooking] otherId 9 sampleBody).1 = [sampleBooking] ∧
    ((∃ oid, castObjectId otherId = some oid) →
      (putBooking [sampleBooking] otherId 9 sampleBody).2 =
        { status := 404, body := .message "Booking not found" }) ∧
    (castObjectId otherId = none →
      (putBooking [sampleBooking] otherId 9 sampleBody).2 =
        { status := 500, body := .message "Failed to update booking" }) :=
  putBooking_unresolved [sampleBooking] otherId 9 sampleBody (by decide)

/-! ## Lemmas on text -/

theorem regexTest_iff (words : List (List Char)) (s : List Char) :
    regexTest words s = true ↔ ∃ w ∈ words, w <:+: s := by
  induction s with
  | nil =>
    simp only [regexTest, List.any_eq_true, List.isPrefixOf_iff_prefix, List.prefix_nil,
      List.infix_nil]
  | cons c cs ih =>
    simp only [regexTest, Bool.or_eq_true, List.any_eq_true, List.isPrefixOf_iff_prefix, ih,
      List.infix_cons_iff]
    constructor
    · rintro (⟨w, hw, h⟩ | ⟨w, hw, h⟩)
      · exact ⟨w, hw, Or.inl h⟩
      · exact ⟨w, hw, Or.inr h⟩
    · rintro ⟨w, hw, h | h⟩
      · exact Or.inl ⟨w, hw, h⟩
      · exact Or.inr ⟨w, hw, h⟩

theorem splitOn_of_not_mem (sep : Char) (l : List Char) (h : sep ∉ l) :
    splitOn sep l = [l] := by
  induction l with
  | nil => rfl
  | cons c cs ih =>
    have hc : c ≠ sep := fun e => h (by simp [e])
    have hcs : sep ∉ cs := fun e => h (by simp [e])
    simp [splitOn, hc, ih hcs]

theorem splitOn_append_sep (sep : Char) (pre rest : List Char) :
    ∃ front, front ≠ [] ∧ splitOn sep (pre ++ sep :: rest) = front ++ splitOn sep rest := by
  induction pre with
  | nil => exact ⟨[[]], by simp, by simp [splitOn]⟩
  | cons c cs ih =>
    obtain ⟨front, hne, hfront⟩ := ih
    by_cases hc : c = sep
    · exact ⟨[] :: front, by simp, by simp [splitOn, hc, ← hfront]⟩
    · cases front with
      | nil => exact absurd rfl hne
      | cons f fs =>
        refine ⟨(c :: f) :: fs, by simp, ?_⟩
        simp [splitOn, hc, hfront]

theorem getLastD_append_singleton (front : List (List Char)) (x : List Char) :
    (front ++ [x]).getLastD [] = x := by
  induction front with
  | nil => rfl
  | cons f fs ih =>
    cases hfs : fs ++ [x] with
    | nil => simp at hfs
    | cons y ys =>
      rw [hfs] at ih
      simp only [List.cons_append, hfs, List.getLastD_cons] at ih ⊢
      exact ih

theorem headD_splitOn_append_sep (sep : Char) (name rest : List Char) (h : sep ∉ name) :
    (splitOn sep (name ++ sep :: rest)).headD [] = name := by
  induction name with
  | nil => simp [splitOn]
  | cons c cs ih =>
    have hc : c ≠ sep := fun e => h (by simp [e])
    have hcs : sep ∉ cs := fun e => h (by simp [e])
    have ih' := ih hcs
    show (splitOn sep (c :: (cs ++ sep :: rest))).headD [] = c :: cs
    simp only [splitOn, hc, if_false, List.headD_cons, ih']

theorem publicIdOf_url (pre name ext : List Char)
    (hslash : '/' ∉ name) (hdot : '.' ∉ name) (hext : '/' ∉ ext) :
    publicIdOf (pre ++ '/' :: (name ++ '.' :: ext)) = name := by
  obtain ⟨front, _, hfront⟩ := splitOn_append_sep '/' pre (name ++ '.' :: ext)
  have hlast : '/' ∉ name ++ '.' :: ext := by
    simp only [List.mem_append, List.mem_cons, not_or]
    exact ⟨hslash, by decide, hext⟩
  unfold publicIdOf
  rw [hfront, splitOn_of_not_mem '/' _ hlast, getLastD_append_singleton,
    headD_splitOn_append_sep '.' name ext hdot]

/-! ## Lemmas on sorting -/

theorem sorted_findSorted (db : List Product) (filter : Product → Bool) :
    (Product.findSorted db filter).Sorted (fun a b => a.createdAt ≥ b.createdAt) := by
  haveI : IsTotal Product (fun a b => a.createdAt ≥ b.createdAt) :=
    ⟨fun a b => Nat.le_total b.createdAt a.createdAt⟩
  haveI : IsTrans Product (fun a b => a.createdAt ≥ b.createdAt) :=
    ⟨fun _ _ _ hab hbc => Nat.le_trans hbc hab⟩
  exact List.sorted_insertionSort _ _

theorem perm_findSorted (db : List Product) (filter : Product → Bool) :
    (Product.findSorted db filter).Perm (db.filter filter) :=
  List.perm_insertionSort _ _

/-! ## Lemmas on the product routes -/

theorem updateFields_imageUrl (env : Env) (body : ProductBody) (product : Product) :
    (updateFields env body product).fields.imageUrl = product.imageUrl := by
  unfold updateFields ProductDoc.setPrice
  split
  · split <;> rfl
  · rfl

theorem updateFields_id (env : Env) (body : ProductBody) (product : Product) :
    (updateFields env body product).fields._id = product._id := by
  unfold updateFields ProductDoc.setPrice
  split
  · split <;> rfl
  · rfl

theorem saveUpdated_destroyed (db : List Product) (doc : ProductDoc) (log : List String) :
    (saveUpdated db doc log).destroyed = log := by
  unfold saveUpdated
  split <;> rfl

theorem destroyStoredImage_rejects (env : Env) (url e : String) (hne : url ≠ "")
    (h : env.destroy (destroyTarget url) = .error e) :
    destroyStoredImage env (.str url) = (.error e, [destroyTarget url]) := by
  simp [destroyStoredImage, JSVal.truthy, hne, h]

theorem destroyStoredImage_resolves (env : Env) (url r : String) (hne : url ≠ "")
    (h : env.destroy (destroyTarget url) = .ok r) :
    destroyStoredImage env (.str url) = (.ok (), [destroyTarget url]) := by
  simp [destroyStoredImage, JSVal.truthy, hne, h]

theorem putProductHandler_destroyed (env : Env) (db : List Product) (id : String)
    (body : ProductBody) (path url : String) (product : Product)
    (hfind : Product.findById db id = .ok (some product))
    (himg : product.imageUrl = .str url) (hne : url ≠ "") :
    (putProductHandler env db id body (some path)).destroyed = [destroyTarget url] := by
  simp only [putProductHandler, hfind, updateFields_imageUrl, himg]
  cases hd : env.destroy (destroyTarget url) with
  | error e => simp [destroyStoredImage_rejects env url e hne hd]
  | ok r => simp [destroyStoredImage_resolves env url r hne hd, saveUpdated_destroyed]

theorem deleteProduct_destroyed (env : Env) (db : List Product) (id : String)
    (url : String) (product : Product)
    (hfind : Product.findById db id = .ok (some product))
    (himg : product.imageUrl = .str url) (hne : url ≠ "") :
    (deleteProduct env db id).destroyed = [destroyTarget url] := by
  simp only [deleteProduct, hfind, himg]
  cases hd : env.destroy (destroyTarget url) with
  | error e => simp [destroyStoredImage_rejects env url e hne hd]
  | ok r =>
    simp only [destroyStoredImage_resolves env url r hne hd]
    split <;> rfl

/-! ## Product theorems -/

/-- C9: GET by category answers 200 with a list that holds exactly the stored
records whose category is the given text, character for character, each as
often as it is stored (once when the stored records are distinct), ordered by
creation time, newest first. -/
theorem getProductsByCategory_exact (db : List Product) (c : String) :
    ∃ l : List Product,
      getProductsByCategory db c = { status := 200, body := .products l } ∧
      (∀ p, p ∈ l ↔ p ∈ db ∧ p.category = .str c) ∧
      (∀ p, l.count p = if p.category = .str c then db.count p else 0) ∧
      (db.Nodup → l.Nodup) ∧
      l.Sorted (fun a b => a.createdAt ≥ b.createdAt) := by
  have hperm := perm_findSorted db (fun p => decide (p.category = .str c))
  refine ⟨Product.findSorted db (fun p => decide (p.category = .str c)), rfl, ?_, ?_, ?_,
    sorted_findSorted db _⟩
  · intro p
    rw [hperm.mem_iff]
    simp
  · intro p
    rw [hperm.count_eq]
    by_cases hp : p.category = .str c
    · rw [if_pos hp, List.count_filter (by simpa using hp)]
    · rw [if_neg hp, List.count_eq_zero]
      intro hmem
      exact hp (by simpa using (List.mem_filter.1 hmem).2)
  · intro hnd
    exact (hperm.nodup_iff).2 (hnd.filter _)

/-- C10: for a stored image URL `pre/name.ext` in which `name` is non-empty and
free of "/" and "." and `ext` is free of "/", the derived identifier is `name`,
and the update handler (with a new image) and the delete handler both pass
"product-images/name" to the provider's destroy call. -/
theorem destroyTarget_of_url (pre name ext : String) (_hname : name ≠ "")
    (hslash : '/' ∉ name.data) (hdot : '.' ∉ name.data) (hext : '/' ∉ ext.data) :
    String.mk (publicIdOf (pre ++ "/" ++ name ++ "." ++ ext).data) = name ∧
    destroyTarget (pre ++ "/" ++ name ++ "." ++ ext) = "product-images/" ++ name ∧
    ∀ (env : Env) (db : List Product) (id : String) (body : ProductBody) (path : String)
      (product : Product),
      Product.findById db id = .ok (some product) →
      product.imageUrl = .str (pre ++ "/" ++ name ++ "." ++ ext) →
      (putProductHandler env db id body (some path)).destroyed = ["product-images/" ++ name] ∧
      (deleteProduct env db id).destroyed = ["product-images/" ++ name] := by
  have hdata : (pre ++ "/" ++ name ++ "." ++ ext).data =
      pre.data ++ '/' :: (name.data ++ '.' :: ext.data) := by
    simp [String.data_append]
  have hpid : publicIdOf (pre ++ "/" ++ name ++ "." ++ ext).data = name.data := by
    rw [hdata]
    exact publicIdOf_url pre.data name.data ext.data hslash hdot hext
  have htarget : destroyTarget (pre ++ "/" ++ name ++ "." ++ ext) = "product-images/" ++ name := by
    unfold destroyTarget
    rw [hpid]
    rfl
  have hne : pre ++ "/" ++ name ++ "." ++ ext ≠ "" := by
    intro h
    have := congrArg String.data h
    rw [hdata] at this
    simp at this
  refine ⟨by rw [hpid], htarget, ?_⟩
  intro env db id body path product hfind himg
  rw [← htarget]
  exact ⟨putProductHandler_destroyed env db id body path _ product hfind himg hne,
    deleteProduct_destroyed env db id _ product hfind himg hne⟩

/-- C10 at the stored image of the sample product. -/
theorem destroyTarget_of_url_witness :
    String.mk (publicIdOf ("https://res.cloudinary.com/demo/image/upload/v1/product-images"
      ++ "/" ++ "abc123" ++ "." ++ "jpg").data) = "abc123" ∧
    destroyTarget ("https://res.cloudinary.com/demo/image/upload/v1/product-images"
      ++ "/" ++ "abc123" ++ "." ++ "jpg") = "product-images/" ++ "abc123" ∧
    (putProductHandler failingEnv [sampleProduct] sampleId
      ⟨.undefined, .undefined, .undefined, .undefined, .undefined⟩ (some "u")).destroyed =
      ["product-images/" ++ "abc123"] ∧
    (deleteProduct workingEnv [sampleProduct] sampleId).destroyed =
      ["product-images/" ++ "abc123"] := by
  have hfindF : Product.findById [sampleProduct] sampleId = .ok (some sampleProduct) := by
    decide
  have himg : sampleProduct.imageUrl =
      .str ("https://res.cloudinary.com/demo/image/upload/v1/product-images"
        ++ "/" ++ "abc123" ++ "." ++ "jpg") := by
    decide
  have h := destroyTarget_of_url "https://res.cloudinary.com/demo/image/upload/v1/product-images"
    "abc123" "jpg" (by decide) (by decide) (by decide) (by decide)
  exact ⟨h.1, h.2.1,
    (h.2.2 failingEnv [sampleProduct] sampleId
      ⟨.undefined, .undefined, .undefined, .undefined, .undefined⟩ "u" sampleProduct
      hfindF himg).1,
    (h.2.2 workingEnv [sampleProduct] sampleId
      ⟨.undefined, .undefined, .undefined, .undefined, .undefined⟩ "u" sampleProduct
      hfindF himg).2⟩

/-- C5, as stated, fails: the content type "text/x-gift-list" is none of jpeg,
jpg, png and gif, yet the file filter accepts the attachment "report.gift"
that carries it, because the pattern is searched for anywhere in the text;
with a provider that stores the upload the create request answers 201 and a
record is created. -/
theorem fileFilter_substring_counterexample :
    giftFile.mimetype ∉ ["jpeg", "jpg", "png", "gif"] ∧
    giftFile.mimetype ∉ ["image/jpeg", "image/jpg", "image/png", "image/gif"] ∧
    fileFilter giftFile = .ok true ∧
    (postProduct workingEnv [] sampleId 9 createBody (some giftFile)).res.status = 201 ∧
    (postProduct workingEnv [] sampleId 9 createBody (some giftFile)).db.length = 1 := by
  decide

/-- C5 (amended): the file filter accepts an attachment exactly when its
content type and the lower-cased extension of its original name each contain
one of jpeg, jpg, png or gif; every other attachment, such as one whose
content type contains none of the four or whose name has the extension .txt,
is rejected by the filter with the error "Only image files are allowed!", and
when it has a file name the create request ends in the error middleware with
that error and no product record is created. -/
theorem fileFilter_accepts_iff (env : Env) (db : List Product) (newId : ObjectId) (now : Nat)
    (body : ProductBody) (file : File) (hname : file.originalname ≠ "") :
    (fileFilter file = .ok true ↔
      (∃ t ∈ ["jpeg", "jpg", "png", "gif"], t.data <:+: file.mimetype.data) ∧
      (∃ t ∈ ["jpeg", "jpg", "png", "gif"],
        t.data <:+: (extname file.originalname.data).map lowerChar)) ∧
    ((¬ ∃ t ∈ ["jpeg", "jpg", "png", "gif"], t.data <:+: file.mimetype.data) →
      fileFilter file = .error "Only image files are allowed!") ∧
    ((extname file.originalname.data).map lowerChar = ".txt".data →
      fileFilter file = .error "Only image files are allowed!") ∧
    (fileFilter file ≠ .ok true →
      fileFilter file = .error "Only image files are allowed!" ∧
      postProduct env db newId now body (some file) =
        { db := db
          res := { status := 500
                   body := .failure "Something went wrong!" "Only image files are allowed!" }
          destroyed := [] }) := by
  have hwords : ∀ s : List Char, regexTest filetypes s = true ↔
      ∃ t ∈ ["jpeg", "jpg", "png", "gif"], t.data <:+: s := by
    intro s
    rw [regexTest_iff]
    simp [filetypes]
  have hcases : fileFilter file = .ok true ∨
      fileFilter file = .error "Only image files are allowed!" := by
    by_cases hb : (regexTest filetypes file.mimetype.data &&
        regexTest filetypes ((extname file.originalname.data).map lowerChar)) = true
    · exact Or.inl (by simp only [fileFilter, hb, if_true])
    · exact Or.inr (by simp [fileFilter, hb])
  refine ⟨?_, ?_, ?_, ?_⟩
  · rw [← hwords, ← hwords]
    by_cases hb : (regexTest filetypes file.mimetype.data &&
        regexTest filetypes ((extname file.originalname.data).map lowerChar)) = true
    · have hacc : fileFilter file = .ok true := by simp only [fileFilter, hb, if_true]
      simpa [hacc] using hb
    · have hrej : fileFilter file = .error "Only image files are allowed!" := by
        simp [fileFilter, hb]
      rw [hrej]
      constructor
      · intro h
        cases h
      · intro h
        exact absurd (by simpa using h : (regexTest filetypes file.mimetype.data &&
          regexTest filetypes ((extname file.originalname.data).map lowerChar)) = true) hb
  · intro h
    rw [← hwords] at h
    simp [fileFilter, h]
  · intro h
    have : regexTest filetypes ".txt".data = false := by decide
    simp [fileFilter, h, this]
  · intro h
    have herr : fileFilter file = .error "Only image files are allowed!" := by
      rcases hcases with hc | hc
      · exact absurd hc h
      · exact hc
    refine ⟨herr, ?_⟩
    simp [postProduct, uploadSingle, hname, herr, errorMiddleware]

/-- The amended C5 at a plain-text attachment, which is rejected with nothing
created, next to an accepted image, with which the product is created. -/
theorem fileFilter_accepts_iff_witness :
    fileFilter textFile = .error "Only image files are allowed!" ∧
    postProduct workingEnv [sampleProduct] otherId 9 createBody (some textFile) =
      { db := [sampleProduct]
        res := { status := 500
                 body := .failure "Something went wrong!" "Only image files are allowed!" }
        destroyed := [] } ∧
    fileFilter sampleFile = .ok true ∧
    (postProduct workingEnv [sampleProduct] otherId 9 createBody (some sampleFile)).res.status =
      201 :=
  ⟨((fileFilter_accepts_iff workingEnv [sampleProduct] otherId 9 createBody textFile
      (by decide)).2.2.2 (by decide)).1,
    ((fileFilter_accepts_iff workingEnv [sampleProduct] otherId 9 createBody textFile
      (by decide)).2.2.2 (by decide)).2,
    (fileFilter_accepts_iff workingEnv [sampleProduct] otherId 9 createBody sampleFile
      (by decide)).1.2 ⟨⟨"png", by decide, by decide⟩, ⟨"png", by decide, by decide⟩⟩,
    by decide⟩

/-! ## Partial update of a product -/

theorem find?_map_replace (db : List Product) (oid : ObjectId) (b b' : Product)
    (hf : db.find? (fun p => decide (p._id = oid)) = some b) (hb' : b'._id = oid) :
    (db.map (fun x => if x._id = oid then b' else x)).find?
      (fun p => decide (p._id = oid)) = some b' := by
  induction db with
  | nil => simp at hf
  | cons x xs ih =>
    by_cases hx : x._id = oid
    · simp [hx, hb']
    · simp only [List.find?_cons, hx, decide_False] at hf
      simp only [List.map_cons, hx, if_false, List.find?_cons, decide_False]
      exact ih hf

theorem findById_some (db : List Product) (id : String) (product : Product)
    (hfind : Product.findById db id = .ok (some product)) :
    ∃ oid, castObjectId id = some oid ∧ product._id = oid ∧
      db.find? (fun p => decide (p._id = oid)) = some product := by
  unfold Product.findById at hfind
  cases hc : castObjectId id with
  | none => simp [hc] at hfind
  | some oid =>
    simp only [hc, Except.ok.injEq] at hfind
    exact ⟨oid, rfl, by simpa using List.find?_some hfind, hfind⟩

theorem updateFields_name (env : Env) (body : ProductBody) (product : Product) :
    (updateFields env body product).fields.name = body.name.or product.name := by
  unfold updateFields ProductDoc.setPrice
  split
  · split <;> rfl
  · rfl

theorem updateFields_description (env : Env) (body : ProductBody) (product : Product) :
    (updateFields env body product).fields.description =
      body.description.or product.description := by
  unfold updateFields ProductDoc.setPrice
  split
  · split <;> rfl
  · rfl

theorem updateFields_category (env : Env) (body : ProductBody) (product : Product) :
    (updateFields env body product).fields.category = body.category.or product.category := by
  unfold updateFields ProductDoc.setPrice
  split
  · split <;> rfl
  · rfl

theorem updateFields_price_keep (env : Env) (body : ProductBody) (product : Product)
    (h : body.price.truthy = false) :
    (updateFields env body product).fields.price = product.price := by
  simp [updateFields, h]

theorem updateFields_price_set (env : Env) (body : ProductBody) (product : Product)
    (s : String) (h : body.price = .str s) (hs : s ≠ "")
    (hok : (updateFields env body product).castError = false) :
    (updateFields env body product).fields.price = env.toNumber s ∧
      (env.toNumber s).isSome = true := by
  cases hn : env.toNumber s with
  | none => simp [updateFields, JSVal.truthy, ProductDoc.setPrice, h, castNumber, hs, hn] at hok
  | some q => simp [updateFields, JSVal.truthy, ProductDoc.setPrice, h, castNumber, hs, hn]

theorem saveUpdated_cases (db : List Product) (doc : ProductDoc) (log : List String) :
    ((saveUpdated db doc log).db = db ∧ (saveUpdated db doc log).res.status = 500) ∨
    (doc.castError = false ∧
      (saveUpdated db doc log).db =
        db.map (fun x => if x._id = doc.fields._id then doc.fields else x) ∧
      (saveUpdated db doc log).res = { status := 200, body := .product doc.fields }) := by
  unfold saveUpdated ProductDoc.save
  by_cases h : doc.castError = true ∨ doc.fields.validate = false
  · exact Or.inl (by simp [h])
  · refine Or.inr ?_
    have hc : doc.castError = false := by
      cases hce : doc.castError with
      | false => rfl
      | true => exact absurd (Or.inl hce) h
    have hv : doc.fields.validate = true := by
      cases hve : doc.fields.validate with
      | true => rfl
      | false => exact absurd (Or.inr hve) h
    simp [hc, hv]

theorem putProduct_cases (env : Env) (db : List Product) (id : String) (body : ProductBody)
    (file : Option File) (product : Product)
    (hfind : Product.findById db id = .ok (some product)) :
    ((putProduct env db id body file).db = db ∧
      (putProduct env db id body file).res.status = 500) ∨
    (∃ p', UpdatedAs env body product p' ∧ p'._id = product._id ∧
      (putProduct env db id body file).db =
        db.map (fun x => if x._id = p'._id then p' else x) ∧
      (putProduct env db id body file).res = { status := 200, body := .product p' }) := by
  have key : ∀ (doc : ProductDoc) (log : List String),
      doc.castError = (updateFields env body product).castError →
      doc.fields.name = (updateFields env body product).fields.name →
      doc.fields.description = (updateFields env body product).fields.description →
      doc.fields.category = (updateFields env body product).fields.category →
      doc.fields.price = (updateFields env body product).fields.price →
      doc.fields._id = product._id →
      ((saveUpdated db doc log).db = db ∧ (saveUpdated db doc log).res.status = 500) ∨
      (∃ p', UpdatedAs env body product p' ∧ p'._id = product._id ∧
        (saveUpdated db doc log).db = db.map (fun x => if x._id = p'._id then p' else x) ∧
        (saveUpdated db doc log).res = { status := 200, body := .product p' }) := by
    intro doc log hce hn hd hc hp hi
    rcases saveUpdated_cases db doc log with h | ⟨hok, hdb, hres⟩
    · exact Or.inl h
    · refine Or.inr ⟨doc.fields, ⟨?_, ?_, ?_, ?_, ?_⟩, hi, hdb, hres⟩
      · rw [hn, updateFields_name]
      · rw [hd, updateFields_description]
      · rw [hc, updateFields_category]
      · intro ht
        rw [hp, updateFields_price_keep env body product ht]
      · intro s hs hne
        rw [hp]
        exact updateFields_price_set env body product s hs hne (by rw [← hce, hok])
  unfold putProduct
  cases hu : uploadSingle env file with
  | error e => exact Or.inl ⟨rfl, rfl⟩
  | ok reqFile =>
    simp only [putProductHandler, hfind]
    cases reqFile with
    | none =>
      exact key _ _ rfl rfl rfl rfl rfl (updateFields_id env body product)
    | some path =>
      simp only
      cases hd : destroyStoredImage env (updateFields env body product).fields.imageUrl with
      | mk r log =>
        cases r with
        | error e => exact Or.inl ⟨rfl, rfl⟩
        | ok u =>
          exact key _ _ rfl rfl rfl rfl rfl (updateFields_id env body product)

/-- C2, as stated, fails: the body carries `name` (as empty text) and omits
category; the update succeeds with 200, and the stored name is not overwritten
with the request's value but keeps its prior value. -/
theorem putProduct_empty_name_counterexample :
    emptyNameBody.category = .undefined ∧
    emptyNameBody.name = .str "" ∧
    putProduct workingEnv [sampleProduct] sampleId emptyNameBody none =
      { db := [sampleProduct]
        res := { status := 200, body := .product sampleProduct }
        destroyed := [] } ∧
    sampleProduct.name = .str "Shampoo" ∧
    sampleProduct.name ≠ emptyNameBody.name := by
  decide

/-- C2 (amended): for an update of an existing product whose body omits
category, the stored category after the request equals the one before it; a
request that is not answered with 200 leaves the collection unchanged; and in
a request answered with 200 the stored name and description take the request's
value when it is present as non-empty text and keep their prior value when it
is omitted or empty, and the stored price is the number of the request's
non-empty text and keeps its prior value when the price is omitted or empty. -/
theorem putProduct_partial_update (env : Env) (db : List Product) (id : String)
    (body : ProductBody) (file : Option File) (product : Product)
    (hfind : Product.findById db id = .ok (some product))
    (hcat : body.category = .undefined) :
    (∃ p', Product.findById (putProduct env db id body file).db id = .ok (some p') ∧
      p'.category = product.category) ∧
    ((putProduct env db id body file).res.status ≠ 200 →
      (putProduct env db id body file).db = db) ∧
    ((putProduct env db id body file).res.status = 200 →
      ∃ p', Product.findById (putProduct env db id body file).db id = .ok (some p') ∧
        (putProduct env db id body file).res.body = .product p' ∧
        p'.category = product.category ∧
        (∀ s, body.name = .str s → s ≠ "" → p'.name = .str s) ∧
        (body.name = .undefined ∨ body.name = .null ∨ body.name = .str "" →
          p'.name = product.name) ∧
        (∀ s, body.description = .str s → s ≠ "" → p'.description = .str s) ∧
        (body.description = .undefined ∨ body.description = .null ∨
          body.description = .str "" → p'.description = product.description) ∧
        (∀ s, body.price = .str s → s ≠ "" →
          p'.price = env.toNumber s ∧ (env.toNumber s).isSome = true) ∧
        (body.price = .undefined ∨ body.price = .null ∨ body.price = .str "" →
          p'.price = product.price)) := by
  obtain ⟨oid, hcast, hpid, hfind?⟩ := findById_some db id product hfind
  have hset : ∀ (v old : JSVal) (s : String), v = .str s → s ≠ "" → v.or old = .str s := by
    intro v old s hv hs
    simp [hv, JSVal.or, JSVal.truthy, hs]
  have hkeep : ∀ (v old : JSVal), v = .undefined ∨ v = .null ∨ v = .str "" → v.or old = old := by
    intro v old hv
    rcases hv with hv | hv | hv <;> simp [hv, JSVal.or, JSVal.truthy]
  have hfalsy : ∀ v : JSVal, v = .undefined ∨ v = .null ∨ v = .str "" → v.truthy = false := by
    intro v hv
    rcases hv with hv | hv | hv <;> simp [hv, JSVal.truthy]
  rcases putProduct_cases env db id body file product hfind with
    ⟨hdb, hst⟩ | ⟨p', ⟨hn, hd, hc, hpk, hps⟩, hid, hdb, hres⟩
  · refine ⟨⟨product, by rw [hdb, hfind], rfl⟩, fun _ => hdb, ?_⟩
    intro h200
    rw [hst] at h200
    exact absurd h200 (by decide)
  · have hc' : p'.category = product.category := by
      rw [hc, hkeep _ _ (Or.inl hcat)]
    have hfind' : Product.findById (putProduct env db id body file).db id = .ok (some p') := by
      rw [hdb, hid, hpid]
      simp only [Product.findById, hcast]
      rw [find?_map_replace db oid product p' hfind? (by rw [hid, hpid])]
    refine ⟨⟨p', hfind', hc'⟩, ?_, ?_⟩
    · intro hne
      rw [hres] at hne
      exact absurd rfl hne
    · intro _
      refine ⟨p', hfind', by rw [hres], hc', ?_, ?_, ?_, ?_, hps, ?_⟩
      · intro s hs hne
        rw [hn, hset _ _ s hs hne]
      · intro h
        rw [hn, hkeep _ _ h]
      · intro s hs hne
        rw [hd, hset _ _ s hs hne]
      · intro h
        rw [hd, hkeep _ _ h]
      · intro h
        exact hpk (hfalsy _ h)

/-- The amended C2 at an update of the sample product that renames it and sets
its price. -/
theorem putProduct_partial_update_witness :
    (putProduct workingEnv [sampleProduct] sampleId renameBody none).res.status = 200 ∧
    ∃ p', Product.findById (putProduct workingEnv [sampleProduct] sampleId renameBody none).db
        sampleId = .ok (some p') ∧
      p'.category = .str "hair" ∧ p'.name = .str "Conditioner" ∧
      p'.description = .str "Mild" ∧ p'.price = some (.finite 12) := by
  have hstatus :
      (putProduct workingEnv [sampleProduct] sampleId renameBody none).res.status = 200 := by
    decide
  obtain ⟨p', hf, _, hc, hn, _, _, hd, hp, _⟩ :=
    (putProduct_partial_update workingEnv [sampleProduct] sampleId renameBody none
      sampleProduct (by decide) (by decide)).2.2 hstatus
  refine ⟨hstatus, p', hf, hc, hn "Conditioner" rfl (by decide), ?_, ?_⟩
  · exact hd (Or.inl rfl)
  · exact (hp "12" rfl (by decide)).1

/-- C9 on three stored products: the category "hair" selects the two records
with that exact category, newest first, and not the record of category
"Hair". -/
theorem getProductsByCategory_exact_witness :
    getProductsByCategory [sampleProduct, otherProduct, thirdProduct] "hair" =
      { status := 200, body := .products [thirdProduct, sampleProduct] } ∧
    ∃ l : List Product,
      getProductsByCategory [sampleProduct, otherProduct, thirdProduct] "hair" =
        { status := 200, body := .products l } ∧
      (∀ p, p ∈ l ↔ p ∈ [sampleProduct, otherProduct, thirdProduct] ∧ p.category = .str "hair") ∧
      (∀ p, l.count p =
        if p.category = .str "hair" then [sampleProduct, otherProduct, thirdProduct].count p
        else 0) ∧
      ([sampleProduct, otherProduct, thirdProduct].Nodup → l.Nodup) ∧
      l.Sorted (fun a b => a.createdAt ≥ b.createdAt) :=
  ⟨by decide, getProductsByCategory_exact [sampleProduct, otherProduct, thirdProduct] "hair"⟩

/-! ## Failure of the provider's delete -/

theorem find?_filter_ne (db : List Product) (oid : ObjectId) :
    (db.filter (fun x => decide (x._id ≠ oid))).find? (fun p => decide (p._id = oid)) = none := by
  rw [List.find?_eq_none]
  intro x hx
  simpa using (List.mem_filter.1 hx).2

theorem requiredString_or (v old : JSVal) (h : requiredString old = true) :
    requiredString (v.or old) = true := by
  unfold JSVal.or
  by_cases hv : v.truthy = true
  · rw [if_pos hv]
    cases v with
    | undefined => simp [JSVal.truthy] at hv
    | null => simp [JSVal.truthy] at hv
    | str s => simpa [JSVal.truthy, requiredString] using hv
  · rw [if_neg hv]
    exact h

theorem updateFields_valid (env : Env) (body : ProductBody) (product : Product)
    (hv : product.validate = true)
    (hprice : body.price.truthy = false ∨
      ∃ s, body.price = .str s ∧ (env.toNumber s).isSome = true) :
    (updateFields env body product).castError = false ∧
      (updateFields env body product).fields.validate = true := by
  simp only [Product.validate, Bool.and_eq_true] at hv
  obtain ⟨⟨hn, hp⟩, hc⟩ := hv
  have hn' := requiredString_or body.name product.name hn
  have hc' := requiredString_or body.category product.category hc
  rcases hprice with ht | ⟨s, hs, hsome⟩
  · simp [updateFields, ht, Product.validate, hn', hc', hp]
  · by_cases ht : body.price.truthy = true
    · obtain ⟨q, hq⟩ := Option.isSome_iff_exists.1 hsome
      have hne : s ≠ "" := by
        intro h
        simp [hs, h, JSVal.truthy] at ht
      simp [updateFields, JSVal.truthy, ProductDoc.setPrice, hs, castNumber, hne, hq,
        Product.validate, hn', hc']
    · simp [updateFields, ht, Product.validate, hn', hc', hp]

/-- C3, as stated, fails: the update of the sample product carries an accepted
new image, the provider's delete of the prior image fails, and the update is
aborted with 500 "Failed to update product"; the stored product still has
its prior image. -/
theorem putProduct_destroy_counterexample :
    (∃ path, uploadSingle failingEnv (some sampleFile) = .ok (some path)) ∧
    failingEnv.destroy (destroyTarget
      "https://res.cloudinary.com/demo/image/upload/v1/product-images/abc123.jpg") =
      .error "provider unavailable" ∧
    putProduct failingEnv [sampleProduct] sampleId
      ⟨.undefined, .undefined, .undefined, .undefined, .undefined⟩ (some sampleFile) =
      { db := [sampleProduct]
        res := { status := 500, body := .message "Failed to update product" }
        destroyed := ["product-images/abc123"] } := by
  refine ⟨⟨_, rfl⟩, by decide, by decide⟩

/-- C3 (amended): when an update of an existing product carries a new image
and the product has a stored image, then if the provider's delete of that
image fails (the awaited call rejects) the update is aborted, the stored
products are unchanged and the response is 500 "Failed to update product";
and if that call resolves and the updated document passes validation, the
product is saved with the new image location and returned with status 200. -/
theorem putProduct_destroy_outcome (env : Env) (db : List Product) (id : String)
    (body : ProductBody) (file : Option File) (path url : String) (product : Product)
    (hfind : Product.findById db id = .ok (some product))
    (hupload : uploadSingle env file = .ok (some path))
    (himg : product.imageUrl = .str url) (hne : url ≠ "") :
    (∀ e, env.destroy (destroyTarget url) = .error e →
      putProduct env db id body file =
        { db := db
          res := { status := 500, body := .message "Failed to update product" }
          destroyed := [destroyTarget url] }) ∧
    (∀ r, env.destroy (destroyTarget url) = .ok r →
      product.validate = true →
      (body.price.truthy = false ∨
        ∃ s, body.price = .str s ∧ (env.toNumber s).isSome = true) →
      ∃ p', p'.imageUrl = .str path ∧
        (putProduct env db id body file).res = { status := 200, body := .product p' } ∧
        (putProduct env db id body file).destroyed = [destroyTarget url] ∧
        Product.findById (putProduct env db id body file).db id = .ok (some p')) := by
  refine ⟨?_, ?_⟩
  · intro e hrej
    simp only [putProduct, hupload, putProductHandler, hfind, updateFields_imageUrl, himg,
      destroyStoredImage_rejects env url e hne hrej]
  · intro r hres hv hprice
    obtain ⟨oid, hcast, hpid, hfind?⟩ := findById_some db id product hfind
    obtain ⟨hce, hval⟩ := updateFields_valid env body product hv hprice
    have hce' : ((updateFields env body product).setImageUrl path).castError = false := hce
    have hval' : ((updateFields env body product).setImageUrl path).fields.validate = true :=
      hval
    have hid : ((updateFields env body product).setImageUrl path).fields._id = oid := by
      rw [← hpid, ← updateFields_id env body product]
      rfl
    have hout : putProduct env db id body file =
        { db := db.map (fun x => if x._id = oid then
            ((updateFields env body product).setImageUrl path).fields else x)
          res := { status := 200
                   body := .product ((updateFields env body product).setImageUrl path).fields }
          destroyed := [destroyTarget url] } := by
      simp only [putProduct, hupload, putProductHandler, hfind, updateFields_imageUrl, himg,
        destroyStoredImage_resolves env url r hne hres, saveUpdated, ProductDoc.save, hce',
        hval', hid]
      simp
    refine ⟨((updateFields env body product).setImageUrl path).fields, rfl, ?_, ?_, ?_⟩
    · rw [hout]
    · rw [hout]
    · rw [hout]
      simp only [Product.findById, hcast]
      rw [find?_map_replace db oid product _ hfind? hid]

/-- The amended C3 at the sample product: a failing provider aborts the update,
a working provider lets it store the new image. -/
theorem putProduct_destroy_outcome_witness :
    putProduct failingEnv [sampleProduct] sampleId renameBody (some sampleFile) =
      { db := [sampleProduct]
        res := { status := 500, body := .message "Failed to update product" }
        destroyed := [destroyTarget
          "https://res.cloudinary.com/demo/image/upload/v1/product-images/abc123.jpg"] } ∧
    ∃ p', p'.imageUrl =
        .str "https://res.cloudinary.com/demo/image/upload/v1/product-images/new.png" ∧
      (putProduct workingEnv [sampleProduct] sampleId renameBody (some sampleFile)).res =
        { status := 200, body := .product p' } ∧
      (putProduct workingEnv [sampleProduct] sampleId renameBody (some sampleFile)).destroyed =
        [destroyTarget
          "https://res.cloudinary.com/demo/image/upload/v1/product-images/abc123.jpg"] ∧
      Product.findById
        (putProduct workingEnv [sampleProduct] sampleId renameBody (some sampleFile)).db
        sampleId = .ok (some p') :=
  ⟨(putProduct_destroy_outcome failingEnv [sampleProduct] sampleId renameBody (some sampleFile)
      "https://res.cloudinary.com/demo/image/upload/v1/product-images/new.png"
      "https://res.cloudinary.com/demo/image/upload/v1/product-images/abc123.jpg"
      sampleProduct (by decide) (by decide) (by decide) (by decide)).1
      "provider unavailable" (by decide),
    (putProduct_destroy_outcome workingEnv [sampleProduct] sampleId renameBody (some sampleFile)
      "https://res.cloudinary.com/demo/image/upload/v1/product-images/new.png"
      "https://res.cloudinary.com/demo/image/upload/v1/product-images/abc123.jpg"
      sampleProduct (by decide) (by decide) (by decide) (by decide)).2
      "ok" (by decide) (by decide) (Or.inr ⟨"12", by decide, by decide⟩)⟩

/-- C4, as stated, fails: the provider's delete of the sample product's image
fails, and DELETE answers 500 "Failed to delete product" and leaves the record
in the collection. -/
theorem deleteProduct_destroy_counterexample :
    failingEnv.destroy (destroyTarget
      "https://res.cloudinary.com/demo/image/upload/v1/product-images/abc123.jpg") =
      .error "provider unavailable" ∧
    deleteProduct failingEnv [sampleProduct] sampleId =
      { db := [sampleProduct]
        res := { status := 500, body := .message "Failed to delete product" }
        destroyed := ["product-images/abc123"] } ∧
    getProduct (deleteProduct failingEnv [sampleProduct] sampleId).db sampleId =
      { status := 200, body := .product sampleProduct } := by
  decide

/-- C4 (amended): when DELETE addresses an existing product with a stored
image, then if the provider's delete of that image fails (the awaited call
rejects) the request is aborted, the record stays in the collection and the
response is 500 "Failed to delete product"; and if that call resolves, the
record is removed and the response is 200 "Product deleted successfully". -/
theorem deleteProduct_destroy_outcome (env : Env) (db : List Product) (id : String)
    (url : String) (product : Product)
    (hfind : Product.findById db id = .ok (some product))
    (himg : product.imageUrl = .str url) (hne : url ≠ "") :
    (∀ e, env.destroy (destroyTarget url) = .error e →
      deleteProduct env db id =
        { db := db
          res := { status := 500, body := .message "Failed to delete product" }
          destroyed := [destroyTarget url] }) ∧
    (∀ r, env.destroy (destroyTarget url) = .ok r →
      (deleteProduct env db id).res =
        { status := 200, body := .message "Product deleted successfully" } ∧
      (deleteProduct env db id).destroyed = [destroyTarget url] ∧
      Product.findById (deleteProduct env db id).db id = .ok none) := by
  refine ⟨?_, ?_⟩
  · intro e hrej
    simp only [deleteProduct, hfind, himg, destroyStoredImage_rejects env url e hne hrej]
  · intro r hres
    obtain ⟨oid, hcast, _, _⟩ := findById_some db id product hfind
    have hout : deleteProduct env db id =
        { db := db.filter (fun x => decide (x._id ≠ oid))
          res := { status := 200, body := .message "Product deleted successfully" }
          destroyed := [destroyTarget url] } := by
      simp only [deleteProduct, hfind, himg, destroyStoredImage_resolves env url r hne hres,
        Product.findByIdAndDelete, hcast]
    rw [hout]
    refine ⟨rfl, rfl, ?_⟩
    simp only [Product.findById, hcast, find?_filter_ne]

/-- The amended C4 at the sample product: a failing provider keeps the record,
a working provider lets it be removed. -/
theorem deleteProduct_destroy_outcome_witness :
    deleteProduct failingEnv [sampleProduct] sampleId =
      { db := [sampleProduct]
        res := { status := 500, body := .message "Failed to delete product" }
        destroyed := [destroyTarget
          "https://res.cloudinary.com/demo/image/upload/v1/product-images/abc123.jpg"] } ∧
    (deleteProduct workingEnv [sampleProduct] sampleId).res =
      { status := 200, body := .message "Product deleted successfully" } ∧
    (deleteProduct workingEnv [sampleProduct] sampleId).destroyed = [destroyTarget
      "https://res.cloudinary.com/demo/image/upload/v1/product-images/abc123.jpg"] ∧
    Product.findById (deleteProduct workingEnv [sampleProduct] sampleId).db sampleId =
      .ok none :=
  ⟨(deleteProduct_destroy_outcome failingEnv [sampleProduct] sampleId
      "https://res.cloudinary.com/demo/image/upload/v1/product-images/abc123.jpg"
      sampleProduct (by decide) (by decide) (by decide)).1 "provider unavailable" (by decide),
    (deleteProduct_destroy_outcome workingEnv [sampleProduct] sampleId
      "https://res.cloudinary.com/demo/image/upload/v1/product-images/abc123.jpg"
      sampleProduct (by decide) (by decide) (by decide)).2 "ok" (by decide)⟩

end Salon
